import Mathlib

set_option maxRecDepth 100000

/-!
Verification of the refugees-DID analysis pipeline.

This file shallowly embeds the design/model layer of the repository
(`design.py`, `models.py`, `plots.py`) and proves the frozen claims about
it.  Dataframes become lists of typed rows; numeric columns are rationals,
with `Option` marking missing values (pandas/NumPy NaN), and missingness
propagating through arithmetic the way NaN does.  Estimation itself
(`smf.ols(...).fit(cov_type="HC3")`) is external to the repository, so
fitted models enter the embedding as opaque values produced by an abstract
estimator function.
-/

namespace RefugeesDID

/-- NaN-propagating subtraction: the difference of two float columns is NaN
whenever either operand is. -/
def optSub : Option ℚ → Option ℚ → Option ℚ
  | some a, some b => some (a - b)
  | _, _ => none

/-- Truncation of a rational toward zero: the semantics of NumPy's cast from
float to a signed integer, which `.astype(int)` performs in
`add_treatment_variables`. -/
def truncQ (q : ℚ) : ℤ := q.num.tdiv (q.den : ℤ)

/-- `pandas.Series.median` over the non-missing values: sort ascending and
take the middle element (odd count) or the mean of the two middle elements
(even count).  The median of an empty series is NaN, here `none`. -/
def medianQ (l : List ℚ) : Option ℚ :=
  let s := l.insertionSort (· ≤ ·)
  if s.length = 0 then none
  else if s.length % 2 = 1 then some (s.getD (s.length / 2) 0)
  else some ((s.getD (s.length / 2 - 1) 0 + s.getD (s.length / 2) 0) / 2)

/-! ## design.py -/

/-- One row of the region-year panel as handled by `design.py`. -/
structure Row where
  region : String
  year : ℤ
  foreigners_total : Option ℚ
  total_cases : Option ℚ
  population_total : Option ℚ
  crime_rate_per_100k : Option ℚ
deriving DecidableEq, Repr

/-- A design-layer dataframe: the rows plus a flag recording whether the
optional column 'crime_rate_per_100k' is present.  When the flag is false the
`crime_rate_per_100k` fields are meaningless placeholders, exactly as a
pandas frame simply lacks the column. -/
structure Panel where
  hasCrimeRate : Bool
  rows : List Row
deriving DecidableEq, Repr

/-- A default row, used only as the out-of-range placeholder of `List.getD`. -/
def dRow : Row :=
  { region := "", year := 0, foreigners_total := none, total_cases := none,
    population_total := none, crime_rate_per_100k := none }

/-- The value `total_cases / population_total * 100_000`, missing when either
input is missing.  Float division by zero would give an infinity; it is also
modelled as a missing value here, and no claim depends on that corner. -/
def crimeRateValue (tc pt : Option ℚ) : Option ℚ :=
  match tc, pt with
  | some c, some p => if p = 0 then none else some (c / p * 100000)
  | _, _ => none

/-- `design.add_crime_rate_if_missing`: return a copy of the panel; when the
column 'crime_rate_per_100k' is absent, add it, computed from 'total_cases'
and 'population_total'. -/
def add_crime_rate_if_missing (panel : Panel) : Panel :=
  if panel.hasCrimeRate then panel
  else
    { hasCrimeRate := true
      rows := panel.rows.map fun r =>
        { r with crime_rate_per_100k := crimeRateValue r.total_cases r.population_total } }

/-- `df.groupby("region")["foreigners_total"].diff()`: walk the rows in
order, remembering for every region the `foreigners_total` of the last row of
that region seen so far; each row's entry is its value minus the remembered
one, and is missing for the first row of a region (no remembered value) or
when either value is missing. -/
def diffByRegion : List Row → List (String × Option ℚ) → List (Option ℚ)
  | [], _ => []
  | r :: rs, seen =>
    (match seen.lookup r.region with
     | none => none
     | some prev => optSub r.foreigners_total prev) ::
      diffByRegion rs ((r.region, r.foreigners_total) :: seen)

/-- The 'treatment_intensity' column added by `add_treatment_variables`. -/
def treatment_intensity_list (rows : List Row) : List (Option ℚ) :=
  diffByRegion rows []

/-- The rows zipped with their treatment intensities. -/
def zipIntensity (rows : List Row) : List (Row × Option ℚ) :=
  rows.zip (treatment_intensity_list rows)

/-- The non-missing treatment intensities of the year-2016 rows: the values
whose median the source takes (`Series.median` skips NaN). -/
def intensities2016 (rows : List Row) : List ℚ :=
  (zipIntensity rows).filterMap fun x => if x.1.year = 2016 then x.2 else none

/-- The 2016 treatment intensity of a region: `none` when the region has no
year-2016 row, `some none` when it has one whose intensity is missing.  The
source indexes the 2016 sub-frame by region and maps over it; pandas rejects
a duplicated region index there, so we read the first matching row and state
the affected theorems under `unique2016`. -/
def ti2016 (rows : List Row) (reg : String) : Option (Option ℚ) :=
  ((zipIntensity rows).find? fun x => x.1.year == 2016 && x.1.region == reg).map (·.2)

/-- The treatment threshold of `add_treatment_variables`: the median of the
2016 treatment intensities, cast to int by `.astype(int)` (truncation toward
zero); `none` when there is no non-missing 2016 intensity. -/
def medianThreshold (rows : List Row) : Option ℤ :=
  (medianQ (intensities2016 rows)).map truncQ

/-- The 'treated' flag of one region: 1 when the region's 2016 treatment
intensity is strictly above the integer threshold, 0 otherwise — in
particular for regions without a 2016 row (`.map` leaves NaN, `.fillna(0)`
makes it 0) and for a missing 2016 intensity (NaN compares false).  When the
region has a non-missing 2016 intensity the threshold is defined, so the
`none` threshold branch is unreachable. -/
def treatedOf (rows : List Row) (reg : String) : ℕ :=
  match ti2016 rows reg with
  | some (some v) =>
    match medianThreshold rows with
    | some t => if (t : ℚ) < v then 1 else 0
    | none => 0
  | _ => 0

/-- One row of the frame returned by `add_treatment_variables`: the input
columns plus 'treatment_intensity', 'treated', 'post' and 'did'. -/
structure DesignRow where
  region : String
  year : ℤ
  foreigners_total : Option ℚ
  total_cases : Option ℚ
  population_total : Option ℚ
  crime_rate_per_100k : Option ℚ
  treatment_intensity : Option ℚ
  treated : ℕ
  post : ℕ
  did : ℕ
deriving DecidableEq, Repr

/-- A default design row, used only as the placeholder of `List.getD`. -/
def dDesignRow : DesignRow :=
  { region := "", year := 0, foreigners_total := none, total_cases := none,
    population_total := none, crime_rate_per_100k := none,
    treatment_intensity := none, treated := 0, post := 0, did := 0 }

/-- `design.add_treatment_variables`: add the DID design variables
'treatment_intensity', 'treated', 'post' and 'did' to the panel. -/
def add_treatment_variables (panel : Panel) : List DesignRow :=
  (zipIntensity panel.rows).map fun x =>
    let t := treatedOf panel.rows x.1.region
    let p : ℕ := if 2016 ≤ x.1.year then 1 else 0
    { region := x.1.region, year := x.1.year
      foreigners_total := x.1.foreigners_total
      total_cases := x.1.total_cases
      population_total := x.1.population_total
      crime_rate_per_100k := x.1.crime_rate_per_100k
      treatment_intensity := x.2
      treated := t, post := p, did := t * p }

/-- `design.prepare_analysis_panel`: ensure the crime-rate column, then add
the DID design variables. -/
def prepare_analysis_panel (panel : Panel) : List DesignRow :=
  add_treatment_variables (add_crime_rate_if_missing panel)

/-- At most one year-2016 row per region: the well-formedness condition under
which the source's `.set_index('region') ... .map` is defined (pandas raises
`InvalidIndexError` on a duplicated region index). -/
def unique2016 (rows : List Row) : Prop :=
  ((rows.filter fun r => r.year == 2016).map (·.region)).Nodup

instance (rows : List Row) : Decidable (unique2016 rows) :=
  inferInstanceAs (Decidable (List.Nodup _))

/-! ## models.py -/

/-- A fitted `statsmodels` regression result, reduced to the series the
source reads from it: coefficients, robust standard errors, p-values and the
95% confidence intervals, each an association list from parameter name to
value(s).  The estimation producing such a value is done by the external
statistics library, so fitted models are opaque data here. -/
structure RegModel where
  params : List (String × ℚ)
  bse : List (String × ℚ)
  pvalues : List (String × ℚ)
  conf_int : List (String × ℚ × ℚ)
deriving DecidableEq, Repr

/-- `series.get(name, np.nan)`: the value bound to the name, `none` (NaN)
when the name is absent. -/
def seriesGet (s : List (String × ℚ)) (name : String) : Option ℚ :=
  s.lookup name

/-- One row of the prepared panel as consumed by
`models.run_did_with_threshold`: the columns that function reads. -/
structure MRow where
  region : String
  year : ℤ
  treatment_intensity : Option ℚ
  post : ℕ
  crime_rate_per_100k : Option ℚ
deriving DecidableEq, Repr

/-- An `MRow` with the 'treated_alt' and 'did_alt' columns added. -/
structure AltRow extends MRow where
  treated_alt : ℕ
  did_alt : ℕ
deriving DecidableEq, Repr

/-- `ti_2016`: the 'treatment_intensity' of a region's year-2016 row (`none`
when the region has no such row, `some none` when the value there is NaN).
As with `ti2016`, the first matching row stands for the unique one. -/
def tiAlt2016 (panel : List MRow) (reg : String) : Option (Option ℚ) :=
  (panel.find? fun r => r.year == 2016 && r.region == reg).map (·.treatment_intensity)

/-- `treated_regions_alt` mapped over a region: 1 iff the region's 2016
treatment intensity is strictly above the given threshold; regions without a
2016 row (`.map` then `.fillna(0)`) or with a missing intensity (NaN compares
false) get 0. -/
def treatedAltOf (panel : List MRow) (threshold : ℚ) (reg : String) : ℕ :=
  match tiAlt2016 panel reg with
  | some (some v) => if threshold < v then 1 else 0
  | _ => 0

/-- The dataframe built inside `models.run_did_with_threshold` before the OLS
call: the panel with 'treated_alt' and 'did_alt' columns added. -/
def didAltFrame (panel : List MRow) (threshold : ℚ) : List AltRow :=
  panel.map fun r =>
    let t := treatedAltOf panel threshold r.region
    { toMRow := r, treated_alt := t, did_alt := t * r.post }

/-- `models.run_did_with_threshold`, with the external estimator
(`smf.ols("crime_rate_per_100k ~ did_alt + C(region) + C(year)").fit`)
passed in as the function `ols` from the constructed frame to a fitted
model. -/
def run_did_with_threshold (ols : List AltRow → RegModel) (panel : List MRow)
    (threshold : ℚ) : RegModel :=
  ols (didAltFrame panel threshold)

/-- One row of the dataframe returned by `models.run_threshold_grid`. -/
structure GridRow where
  name : String
  threshold : ℚ
  coef_did_alt : Option ℚ
  se_did_alt : Option ℚ
  pvalue_did_alt : Option ℚ
deriving DecidableEq, Repr

/-- `models.run_threshold_grid`: iterate the threshold mapping in insertion
order (`dict` preserves it), refit per threshold, and collect the label, the
threshold and the 'did_alt' coefficient, robust standard error and p-value
(NaN — here `none` — when the fitted model has no 'did_alt' term). -/
def run_threshold_grid (ols : List AltRow → RegModel) (panel : List MRow) :
    List (String × ℚ) → List GridRow
  | [] => []
  | (n, thr) :: rest =>
    let model := run_did_with_threshold ols panel thr
    { name := n, threshold := thr
      coef_did_alt := seriesGet model.params "did_alt"
      se_did_alt := seriesGet model.bse "did_alt"
      pvalue_did_alt := seriesGet model.pvalues "did_alt" } ::
      run_threshold_grid ols panel rest

/-- One row of the panel as consumed by `models.fit_pretrend_interaction`. -/
structure PRow where
  region : String
  year : ℤ
  treated : ℕ
  crime_rate_per_100k : Option ℚ
deriving DecidableEq, Repr

/-- A `PRow` with the derived 'year_num' column. -/
structure PreRow extends PRow where
  year_num : Option ℤ
deriving DecidableEq, Repr

/-- `pre["year"].min()`: `none` for an empty frame (pandas min is NaN
there). -/
def minYear (rows : List PRow) : Option ℤ :=
  match rows.map (·.year) with
  | [] => none
  | y :: ys => some (ys.foldl min y)

/-- `panel[panel["year"] < pre_cutoff_year]`. -/
def preRestrict (panel : List PRow) (pre_cutoff_year : ℤ) : List PRow :=
  panel.filter fun r => decide (r.year < pre_cutoff_year)

/-- The pre-period frame built inside `models.fit_pretrend_interaction`: the
rows with `year < pre_cutoff_year`, with
`year_num = year - min(year over the retained rows)` added. -/
def preFrame (panel : List PRow) (pre_cutoff_year : ℤ) : List PreRow :=
  (preRestrict panel pre_cutoff_year).map fun r =>
    { toPRow := r,
      year_num := (minYear (preRestrict panel pre_cutoff_year)).map fun m0 => r.year - m0 }

/-- `models.fit_pretrend_interaction`, with the external estimator
(`smf.ols("crime_rate_per_100k ~ treated * year_num + C(region)").fit`)
passed in as the function `ols`. -/
def fit_pretrend_interaction (ols : List PreRow → RegModel) (panel : List PRow)
    (pre_cutoff_year : ℤ) : RegModel :=
  ols (preFrame panel pre_cutoff_year)

/-! ## plots.py — event-study table -/

/-- Consume a literal prefix of a character list; `some` of the remainder on
success. -/
def stripLit : List Char → List Char → Option (List Char)
  | [], s => some s
  | _ :: _, [] => none
  | p :: ps, c :: cs => if p = c then stripLit ps cs else none

/-- The numeric value of a run of decimal digits. -/
def digitsToNat (ds : List Char) : ℕ :=
  ds.foldl (fun a c => 10 * a + (c.toNat - 48)) 0

/-- `_EVENT_PATTERN.match(name)` for the pattern
`C\(year, Treatment\(reference=\d+\)\)\[(?P<year>\d+)\]:treated`,
returning the captured year group.  `re.match` anchors at the start only, so
trailing characters after ":treated" are allowed.  Each greedy `\d+` group is
followed by a non-digit literal, so taking the maximal digit run is exactly
the regex semantics (no backtracking can occur). -/
def eventPatternCapture (s : String) : Option ℕ :=
  match stripLit "C(year, Treatment(reference=".toList s.toList with
  | none => none
  | some s1 =>
    let d1 := s1.span (·.isDigit)
    if d1.1.isEmpty then none
    else
      match stripLit "))[".toList d1.2 with
      | none => none
      | some s2 =>
        let d2 := s2.span (·.isDigit)
        if d2.1.isEmpty then none
        else
          match stripLit "]:treated".toList d2.2 with
          | none => none
          | some _ => some (digitsToNat d2.1)

/-- Modelled from the words of claim C2 for comparison with the source: a
parameter name matching the event-study pattern as a WHOLE, i.e. with nothing
following ":treated".  The source instead uses `re.match`, which anchors only
at the start of the name. -/
def eventPatternCaptureFull (s : String) : Option ℕ :=
  match stripLit "C(year, Treatment(reference=".toList s.toList with
  | none => none
  | some s1 =>
    let d1 := s1.span (·.isDigit)
    if d1.1.isEmpty then none
    else
      match stripLit "))[".toList d1.2 with
      | none => none
      | some s2 =>
        let d2 := s2.span (·.isDigit)
        if d2.1.isEmpty then none
        else
          match stripLit "]:treated".toList d2.2 with
          | none => none
          | some [] => some (digitsToNat d2.1)
          | some (_ :: _) => none

/-- One row of the event-study table built by `build_event_study_table`. -/
structure EventRow where
  year : ℤ
  rel_year : ℤ
  coef : ℚ
  se : Option ℚ
  pvalue : Option ℚ
  ci_low : Option ℚ
  ci_high : Option ℚ
deriving DecidableEq, Repr

/-- `name in conf.index` followed by `conf.loc[name]`: the confidence bounds
for a name when present. -/
def ciGet (ci : List (String × ℚ × ℚ)) (name : String) : Option (ℚ × ℚ) :=
  ci.lookup name

/-- The row appended for one parameter when its name matches the event-study
pattern, with the fields read exactly as the source reads them. -/
def eventRowOf (m : RegModel) (ref_year : ℤ) (p : String × ℚ) : Option EventRow :=
  (eventPatternCapture p.1).map fun y =>
    { year := (y : ℤ), rel_year := (y : ℤ) - ref_year, coef := p.2
      se := seriesGet m.bse p.1
      pvalue := seriesGet m.pvalues p.1
      ci_low := (ciGet m.conf_int p.1).map Prod.fst
      ci_high := (ciGet m.conf_int p.1).map Prod.snd }

/-- The extraction loop of `build_event_study_table` over `params.items()`. -/
def extractEventRowsAux (m : RegModel) (ref_year : ℤ) :
    List (String × ℚ) → List EventRow
  | [] => []
  | p :: ps =>
    match eventRowOf m ref_year p with
    | none => extractEventRowsAux m ref_year ps
    | some r => r :: extractEventRowsAux m ref_year ps

/-- The list `rows` of `build_event_study_table` before the reference row and
the sort. -/
def extractEventRows (m : RegModel) (ref_year : ℤ) : List EventRow :=
  extractEventRowsAux m ref_year m.params

/-- The synthetic reference row appended for plotting when the reference year
is absent: effect 0, everything else missing (the appended dict has no
'pvalue' key, so that column is NaN on this row). -/
def refRow (ref_year : ℤ) : EventRow :=
  { year := ref_year, rel_year := 0, coef := 0, se := none, pvalue := none,
    ci_low := none, ci_high := none }

/-- Ordering of event rows by 'rel_year', the key of the final
`sort_values`. -/
def relLE (a b : EventRow) : Prop := a.rel_year ≤ b.rel_year

instance : DecidableRel relLE := fun a b =>
  inferInstanceAs (Decidable (a.rel_year ≤ b.rel_year))

instance : IsTotal EventRow relLE := ⟨fun a b => le_total a.rel_year b.rel_year⟩

instance : IsTrans EventRow relLE :=
  ⟨fun _ _ _ hab hbc => le_trans (hab : _ ≤ _) hbc⟩

/-- `df.sort_values("rel_year")` (an ascending sort on a never-NaN column; we
use a stable insertion sort — the claims use only sortedness and the
multiset of rows). -/
def sortByRelYear (rows : List EventRow) : List EventRow :=
  rows.insertionSort relLE

/-- `df["pvalue"].round(3)` applied to one row.  NumPy rounds exact halves to
even; no claim touches the p-value column, and away from exact thousandth
halves this agrees with `round`. -/
def roundPvalue (r : EventRow) : EventRow :=
  { r with pvalue := r.pvalue.map fun q => (round (1000 * q) : ℚ) / 1000 }

/-- The `ValueError` message of `build_event_study_table` (interpolations
elided). -/
def noEventMsg : String :=
  "No event-study coefficients found"

/-- `plots.build_event_study_table`: extract the rows of matching
parameters, raise `ValueError` when there is none, append the synthetic
reference row when the reference year is absent, sort by 'rel_year' and
round the p-values. -/
def build_event_study_table (m : RegModel) (ref_year : ℤ) :
    Except String (List EventRow) :=
  if (extractEventRows m ref_year).isEmpty then .error noEventMsg
  else if (extractEventRows m ref_year).any fun r => r.year == ref_year then
    .ok ((sortByRelYear (extractEventRows m ref_year)).map roundPvalue)
  else
    .ok ((sortByRelYear (extractEventRows m ref_year ++ [refRow ref_year])).map roundPvalue)

/-- The number of rows of a table carrying a given calendar year. -/
def countYear (t : List EventRow) (y : ℤ) : ℕ :=
  (t.filter fun r => r.year == y).length

instance exceptDecidableEq {ε α : Type} [DecidableEq ε] [DecidableEq α] :
    DecidableEq (Except ε α) := fun a b =>
  match a, b with
  | .error e1, .error e2 =>
    if h : e1 = e2 then .isTrue (congrArg Except.error h)
    else .isFalse (by intro hc; injection hc with h2; exact h h2)
  | .ok v1, .ok v2 =>
    if h : v1 = v2 then .isTrue (congrArg Except.ok h)
    else .isFalse (by intro hc; injection hc with h2; exact h h2)
  | .error _, .ok _ => .isFalse (by intro hc; exact Except.noConfusion hc)
  | .ok _, .error _ => .isFalse (by intro hc; exact Except.noConfusion hc)

/-! ## plots.py — data preparation with dynamic columns -/

/-- A dataframe with a dynamic column set, for the two plot-data helpers
whose column-presence checks the claims are about: `cols` is the column
index and each row binds column names to (non-missing) values — a name
missing from a row is a NaN cell. -/
structure DynDF where
  cols : List String
  rows : List (List (String × ℚ))
deriving DecidableEq, Repr

/-- The `ValueError` message of the column-presence checks (the interpolated
set of missing names is elided). -/
def missingMsg : String :=
  "panel is missing required columns"

/-- The (year, treated) group key of a row; `none` when either key cell is
missing — `groupby` drops such rows. -/
def rowKey (r : List (String × ℚ)) : Option (ℚ × ℚ) :=
  match r.lookup "year", r.lookup "treated" with
  | some y, some t => some (y, t)
  | _, _ => none

/-- Lexicographic order on group keys, the order `groupby` sorts them in. -/
def keyLE (a b : ℚ × ℚ) : Prop :=
  a.1 < b.1 ∨ (a.1 = b.1 ∧ a.2 ≤ b.2)

instance : DecidableRel keyLE := fun a b =>
  inferInstanceAs (Decidable (a.1 < b.1 ∨ (a.1 = b.1 ∧ a.2 ≤ b.2)))

/-- The distinct group keys of the frame, sorted. -/
def groupKeys (panel : DynDF) : List (ℚ × ℚ) :=
  ((panel.rows.filterMap rowKey).dedup).insertionSort keyLE

/-- The rows belonging to one group key. -/
def rowsAtKey (panel : DynDF) (y t : ℚ) : List (List (String × ℚ)) :=
  panel.rows.filter fun r => rowKey r == some (y, t)

/-- `Series.mean`: the mean of the non-missing values, NaN (`none`) when
there is none. -/
def meanOpt (l : List ℚ) : Option ℚ :=
  if l.isEmpty then none else some (l.sum / l.length)

/-- `panel.groupby(["year", "treated"], as_index=False)[outcome].mean()`. -/
def groupMeans (panel : DynDF) (outcome : String) : List (ℚ × ℚ × Option ℚ) :=
  (groupKeys panel).map fun k =>
    (k.1, k.2, meanOpt ((rowsAtKey panel k.1 k.2).filterMap fun r => r.lookup outcome))

/-- `plots.compute_parallel_trends_data`: check the required columns, then
aggregate the outcome by year and treatment status. -/
def compute_parallel_trends_data (panel : DynDF) (outcome : String) :
    Except String (List (ℚ × ℚ × Option ℚ)) :=
  let missing := ["year", "treated", outcome].filter fun c => decide (c ∉ panel.cols)
  if missing.isEmpty then .ok (groupMeans panel outcome)
  else .error missingMsg

/-- The column selection of `compute_treatment_intensity_distribution`:
'year' and the intensity column, plus 'region' and 'treated' when present. -/
def tidCols (panel : DynDF) (intensity_col : String) : List String :=
  ["year", intensity_col] ++
    (if "region" ∈ panel.cols then ["region"] else []) ++
    (if "treated" ∈ panel.cols then ["treated"] else [])

/-- `plots.compute_treatment_intensity_distribution`: check the required
columns, restrict to the given year with a non-missing intensity, raise when
nothing is left, and return the subset with the median intensity. -/
def compute_treatment_intensity_distribution (panel : DynDF) (year : ℚ)
    (intensity_col : String) :
    Except String (List (List (String × ℚ)) × ℚ) :=
  let missing := ["year", intensity_col].filter fun c => decide (c ∉ panel.cols)
  if missing.isEmpty then
    let dfYear :=
      (panel.rows.map fun r => r.filter fun cell => decide (cell.1 ∈ tidCols panel intensity_col)).filter
        fun r => r.lookup "year" == some year && (r.lookup intensity_col).isSome
    if dfYear.isEmpty then .error "No rows found for the year"
    else .ok (dfYear, (medianQ (dfYear.filterMap fun r => r.lookup intensity_col)).getD 0)
  else .error missingMsg

/-! ## Specification-side characterizations used in theorem statements -/

/-- The `foreigners_total` of the last row of a given region within a list of
rows (the "previous row of the same region" of a diff): `none` when the
region does not occur. -/
def lastPrevFt (pre : List Row) (reg : String) : Option (Option ℚ) :=
  ((pre.filter fun r => r.region == reg).getLast?).map (·.foreigners_total)

/-! ## Concrete instances for counterexamples and witnesses -/

/-- A default pre-period row, used only as the placeholder of `List.getD`. -/
def dPreRow : PreRow :=
  { region := "", year := 0, treated := 0, crime_rate_per_100k := none, year_num := none }

/-- A panel of two regions whose 2016 intensities are -1 and -2: the median
is -3/2, which `.astype(int)` truncates to -1. -/
def c1Panel : Panel :=
  { hasCrimeRate := true,
    rows := [
      { region := "A", year := 2015, foreigners_total := some 10, total_cases := none,
        population_total := none, crime_rate_per_100k := none },
      { region := "A", year := 2016, foreigners_total := some 9, total_cases := none,
        population_total := none, crime_rate_per_100k := none },
      { region := "B", year := 2015, foreigners_total := some 10, total_cases := none,
        population_total := none, crime_rate_per_100k := none },
      { region := "B", year := 2016, foreigners_total := some 8, total_cases := none,
        population_total := none, crime_rate_per_100k := none }] }

/-- A model whose only parameter name carries trailing characters after
":treated", so it matches the event-study pattern as a prefix but not as a
whole. -/
def c2BadModel : RegModel :=
  { params := [("C(year, Treatment(reference=2015))[2016]:treatedXXX", 5)],
    bse := [], pvalues := [], conf_int := [] }

/-- A model with one exactly-matching event-study parameter. -/
def c2Model : RegModel :=
  { params := [("C(year, Treatment(reference=2015))[2016]:treated", 2)],
    bse := [("C(year, Treatment(reference=2015))[2016]:treated", 1)],
    pvalues := [],
    conf_int := [("C(year, Treatment(reference=2015))[2016]:treated", (0, 4))] }

/-- The event-study table of `c2Model` at reference year 2015. -/
def c2Table : List EventRow :=
  [refRow 2015,
   { year := 2016, rel_year := 1, coef := 2, se := some 1, pvalue := none,
     ci_low := some 0, ci_high := some 4 }]

/-- A small panel exercising `prepare_analysis_panel` (the crime-rate column
is present, so `add_crime_rate_if_missing` leaves it untouched). -/
def c3Panel : Panel :=
  { hasCrimeRate := true,
    rows := [
      { region := "A", year := 2015, foreigners_total := some 10, total_cases := some 5,
        population_total := some 100, crime_rate_per_100k := none },
      { region := "A", year := 2016, foreigners_total := some 12, total_cases := some 6,
        population_total := some 100, crime_rate_per_100k := none },
      { region := "B", year := 2015, foreigners_total := some 10, total_cases := some 7,
        population_total := some 100, crime_rate_per_100k := none },
      { region := "B", year := 2016, foreigners_total := some 18, total_cases := some 8,
        population_total := some 100, crime_rate_per_100k := none }] }

/-- Rows exercising the grouped first difference. -/
def c4Rows : List Row :=
  [{ region := "A", year := 2015, foreigners_total := some 10, total_cases := none,
     population_total := none, crime_rate_per_100k := none },
   { region := "B", year := 2015, foreigners_total := some 4, total_cases := none,
     population_total := none, crime_rate_per_100k := none },
   { region := "A", year := 2016, foreigners_total := some 9, total_cases := none,
     population_total := none, crime_rate_per_100k := none }]

/-- A panel exercising `fit_pretrend_interaction`. -/
def c6Panel : List PRow :=
  [{ region := "A", year := 2012, treated := 0, crime_rate_per_100k := some 3 },
   { region := "A", year := 2017, treated := 0, crime_rate_per_100k := some 4 },
   { region := "B", year := 2014, treated := 1, crime_rate_per_100k := some 5 }]

/-- A trivial stand-in for the external OLS estimator. -/
def c6Ols : List PreRow → RegModel :=
  fun _ => { params := [], bse := [], pvalues := [], conf_int := [] }

/-- A frame having all three required columns of
`compute_parallel_trends_data`. -/
def c7Good : DynDF :=
  { cols := ["year", "treated", "crime_rate_per_100k"],
    rows := [[("year", 2015), ("treated", 1), ("crime_rate_per_100k", 7)],
             [("year", 2015), ("treated", 1), ("crime_rate_per_100k", 9)]] }

/-- A frame lacking the 'treated' column. -/
def c7Bad : DynDF :=
  { cols := ["year", "crime_rate_per_100k"],
    rows := [[("year", 2015), ("crime_rate_per_100k", 7)]] }

/-- A panel already carrying the crime-rate column. -/
def c8Panel : Panel :=
  { hasCrimeRate := true,
    rows := [{ region := "A", year := 2015, foreigners_total := some 10,
               total_cases := some 5, population_total := some 100,
               crime_rate_per_100k := some 5000 }] }

/-- A panel whose region "C" has a 2016 row with a missing treatment
intensity (it is the first row of its region), and region "D" has no 2016
row at all. -/
def c9Panel : Panel :=
  { hasCrimeRate := true,
    rows := [
      { region := "A", year := 2015, foreigners_total := some 10, total_cases := none,
        population_total := none, crime_rate_per_100k := none },
      { region := "A", year := 2016, foreigners_total := some 13, total_cases := none,
        population_total := none, crime_rate_per_100k := none },
      { region := "C", year := 2016, foreigners_total := some 7, total_cases := none,
        population_total := none, crime_rate_per_100k := none },
      { region := "D", year := 2015, foreigners_total := some 2, total_cases := none,
        population_total := none, crime_rate_per_100k := none }] }

/-- The prepared-panel rows matching `c9Panel`, for the
`run_did_with_threshold` half of claim C9. -/
def c9MPanel : List MRow :=
  [{ region := "A", year := 2015, treatment_intensity := none, post := 0,
     crime_rate_per_100k := some 1 },
   { region := "A", year := 2016, treatment_intensity := some 3, post := 1,
     crime_rate_per_100k := some 2 },
   { region := "C", year := 2016, treatment_intensity := none, post := 1,
     crime_rate_per_100k := some 3 },
   { region := "D", year := 2015, treatment_intensity := none, post := 0,
     crime_rate_per_100k := some 4 }]

/-- A model with two distinct parameter names both carrying the calendar
year 2015. -/
def c10Model : RegModel :=
  { params := [("C(year, Treatment(reference=2014))[2015]:treated", 1),
               ("C(year, Treatment(reference=2013))[2015]:treated", 2)],
    bse := [], pvalues := [], conf_int := [] }

/-- The event-study table of `c10Model` at reference year 2015. -/
def c10Table : List EventRow :=
  [{ year := 2015, rel_year := 0, coef := 1, se := none, pvalue := none,
     ci_low := none, ci_high := none },
   { year := 2015, rel_year := 0, coef := 2, se := none, pvalue := none,
     ci_low := none, ci_high := none }]

/-- A model with one matching parameter, away from the reference year. -/
def c10wModel : RegModel :=
  { params := [("C(year, Treatment(reference=2015))[2016]:treated", 3)],
    bse := [], pvalues := [], conf_int := [] }

/-- The event-study table of `c10wModel` at reference year 2015. -/
def c10wTable : List EventRow :=
  [refRow 2015,
   { year := 2016, rel_year := 1, coef := 3, se := none, pvalue := none,
     ci_low := none, ci_high := none }]

/-- A model with no matching parameter at all. -/
def c10eModel : RegModel :=
  { params := [("Intercept", 1)], bse := [], pvalues := [], conf_int := [] }

/-! ## Shared helper lemmas -/

/-- A member of the output of `add_treatment_variables` reads its 'treated',
'post' and 'did' fields from `treatedOf` and its own 'year'. -/
theorem mem_add_treatment_variables (p : Panel) (dr : DesignRow)
    (hdr : dr ∈ add_treatment_variables p) :
    dr.treated = treatedOf p.rows dr.region ∧
    dr.post = (if 2016 ≤ dr.year then 1 else 0) ∧
    dr.did = dr.treated * dr.post := by
  obtain ⟨x, _, rfl⟩ := List.mem_map.mp hdr
  exact ⟨rfl, rfl, rfl⟩

/-- `treatedOf` only takes the values 0 and 1. -/
theorem treatedOf_zero_or_one (rows : List Row) (reg : String) :
    treatedOf rows reg = 0 ∨ treatedOf rows reg = 1 := by
  unfold treatedOf
  cases hti : ti2016 rows reg with
  | none => exact Or.inl rfl
  | some o =>
    cases o with
    | none => exact Or.inl rfl
    | some v =>
      cases hmt : medianThreshold rows with
      | none => exact Or.inl rfl
      | some t =>
        dsimp only
        by_cases h : (t : ℚ) < v
        · exact Or.inr (by rw [if_pos h])
        · exact Or.inl (by rw [if_neg h])

/-- `treatedOf` is 1 exactly when the region's 2016 intensity exists and is
strictly above the truncated median threshold. -/
theorem treatedOf_eq_one_iff (rows : List Row) (reg : String) :
    treatedOf rows reg = 1 ↔
      ∃ v t, ti2016 rows reg = some (some v) ∧
        medianThreshold rows = some t ∧ (t : ℚ) < v := by
  unfold treatedOf
  cases hti : ti2016 rows reg with
  | none => simp [hti]
  | some o =>
    cases o with
    | none => simp [hti]
    | some v =>
      cases hmt : medianThreshold rows with
      | none => simp [hti, hmt]
      | some t =>
        dsimp only
        by_cases h : (t : ℚ) < v
        · simp [h]
        · simp [h]

/-! ## Claims -/

/-- C8: `add_crime_rate_if_missing` is idempotent, and when the column
'crime_rate_per_100k' is already present the input panel is returned
unchanged (nothing is recomputed). -/
theorem c8_add_crime_rate_idempotent (p : Panel) :
    add_crime_rate_if_missing (add_crime_rate_if_missing p) = add_crime_rate_if_missing p ∧
    (p.hasCrimeRate = true → add_crime_rate_if_missing p = p) := by
  constructor
  · by_cases h : p.hasCrimeRate = true
    · simp [add_crime_rate_if_missing, h]
    · simp [add_crime_rate_if_missing, h]
  · intro h
    simp [add_crime_rate_if_missing, h]

/-- Witness for C8 at a concrete panel that already has the column. -/
theorem c8_witness :
    c8Panel.hasCrimeRate = true ∧ add_crime_rate_if_missing c8Panel = c8Panel :=
  ⟨rfl, (c8_add_crime_rate_idempotent c8Panel).2 rfl⟩

/-- C5: `run_threshold_grid` returns exactly one row per (label, threshold)
entry, in the mapping's iteration order, whose fields are the label, the
threshold and the 'did_alt' coefficient, robust standard error and p-value
of the model fitted by `run_did_with_threshold` on that panel with that
threshold (`none`, i.e. NaN, when the fitted model has no 'did_alt' term). -/
theorem c5_run_threshold_grid (ols : List AltRow → RegModel) (panel : List MRow)
    (thresholds : List (String × ℚ)) :
    run_threshold_grid ols panel thresholds =
      thresholds.map (fun nt =>
        { name := nt.1, threshold := nt.2
          coef_did_alt := seriesGet (run_did_with_threshold ols panel nt.2).params "did_alt"
          se_did_alt := seriesGet (run_did_with_threshold ols panel nt.2).bse "did_alt"
          pvalue_did_alt :=
            seriesGet (run_did_with_threshold ols panel nt.2).pvalues "did_alt" }) ∧
    (run_threshold_grid ols panel thresholds).length = thresholds.length := by
  have h : ∀ ts : List (String × ℚ),
      run_threshold_grid ols panel ts =
        ts.map (fun nt =>
          { name := nt.1, threshold := nt.2
            coef_did_alt := seriesGet (run_did_with_threshold ols panel nt.2).params "did_alt"
            se_did_alt := seriesGet (run_did_with_threshold ols panel nt.2).bse "did_alt"
            pvalue_did_alt :=
              seriesGet (run_did_with_threshold ols panel nt.2).pvalues "did_alt" }) := by
    intro ts
    induction ts with
    | nil => rfl
    | cons a rest ih =>
      obtain ⟨n, thr⟩ := a
      simp only [run_threshold_grid, List.map_cons, ih]
  constructor
  · exact h thresholds
  · rw [h thresholds, List.length_map]

/-- C3: `prepare_analysis_panel` produces, for every row, `post` = 1 exactly
on years ≥ 2016, a 0/1 `treated` flag constant across the rows of one
region, and `did = treated * post`.  The `unique2016` hypothesis is the
well-formedness condition under which the source's region-indexed `.map` is
defined. -/
theorem c3_prepare_analysis_panel (p : Panel) (_hu : unique2016 p.rows) :
    ∀ dr ∈ prepare_analysis_panel p,
      dr.post = (if 2016 ≤ dr.year then 1 else 0) ∧
      (dr.treated = 0 ∨ dr.treated = 1) ∧
      dr.did = dr.treated * dr.post ∧
      ∀ dr2 ∈ prepare_analysis_panel p, dr2.region = dr.region → dr2.treated = dr.treated := by
  intro dr hdr
  obtain ⟨ht, hp, hd⟩ := mem_add_treatment_variables _ dr hdr
  refine ⟨hp, ?_, hd, ?_⟩
  · rw [ht]
    exact treatedOf_zero_or_one _ _
  · intro dr2 hdr2 hreg
    obtain ⟨ht2, _, _⟩ := mem_add_treatment_variables _ dr2 hdr2
    rw [ht, ht2, hreg]

/-- Witness for C3 at a concrete panel. -/
theorem c3_witness :
    unique2016 c3Panel.rows ∧
    ((prepare_analysis_panel c3Panel).getD 1 dDesignRow ∈ prepare_analysis_panel c3Panel) ∧
    ((prepare_analysis_panel c3Panel).getD 1 dDesignRow).post =
      (if 2016 ≤ ((prepare_analysis_panel c3Panel).getD 1 dDesignRow).year then 1 else 0) ∧
    ((prepare_analysis_panel c3Panel).getD 1 dDesignRow).did =
      ((prepare_analysis_panel c3Panel).getD 1 dDesignRow).treated *
        ((prepare_analysis_panel c3Panel).getD 1 dDesignRow).post := by
  have hu : unique2016 c3Panel.rows := by with_unfolding_all decide
  have hm : (prepare_analysis_panel c3Panel).getD 1 dDesignRow ∈ prepare_analysis_panel c3Panel := by
    with_unfolding_all decide
  have h := c3_prepare_analysis_panel c3Panel hu _ hm
  exact ⟨hu, hm, h.1, h.2.2.1⟩

/-- C1 counterexample: in `c1Panel` the 2016 intensities are -1 (region "A")
and -2, so the median is -3/2 and region "A" lies strictly above it; the
claim as stated would make "A" treated, but the source compares against the
median cast to int (-1) and assigns `treated = 0`. -/
theorem c1_counterexample :
    ((add_treatment_variables c1Panel).getD 1 dDesignRow).region = "A" ∧
    ((add_treatment_variables c1Panel).getD 1 dDesignRow).year = 2016 ∧
    ((add_treatment_variables c1Panel).getD 1 dDesignRow).treatment_intensity = some (-1) ∧
    medianQ (intensities2016 c1Panel.rows) = some (-(3 / 2)) ∧
    ((-(3 / 2) : ℚ) < -1) ∧
    ((add_treatment_variables c1Panel).getD 1 dDesignRow).treated = 0 := by
  with_unfolding_all decide

/-- C1 (amended): a row's `treated` flag is 1 exactly when its region's 2016
treatment intensity is strictly above the 2016 median truncated toward zero
to an integer (`.astype(int)`), and 0 otherwise. -/
theorem c1_treated_above_truncated_median (p : Panel) (_hu : unique2016 p.rows)
    (dr : DesignRow) (hdr : dr ∈ add_treatment_variables p) :
    (dr.treated = 0 ∨ dr.treated = 1) ∧
    (dr.treated = 1 ↔ ∃ v t, ti2016 p.rows dr.region = some (some v) ∧
      medianThreshold p.rows = some t ∧ (t : ℚ) < v) := by
  obtain ⟨ht, _, _⟩ := mem_add_treatment_variables _ dr hdr
  rw [ht]
  exact ⟨treatedOf_zero_or_one _ _, treatedOf_eq_one_iff _ _⟩

/-- Witness for C1 at the concrete panel of the counterexample. -/
theorem c1_witness :
    unique2016 c1Panel.rows ∧
    ((add_treatment_variables c1Panel).getD 3 dDesignRow ∈ add_treatment_variables c1Panel) ∧
    (((add_treatment_variables c1Panel).getD 3 dDesignRow).treated = 0 ∨
      ((add_treatment_variables c1Panel).getD 3 dDesignRow).treated = 1) := by
  have hu : unique2016 c1Panel.rows := by with_unfolding_all decide
  have hm : (add_treatment_variables c1Panel).getD 3 dDesignRow ∈
      add_treatment_variables c1Panel := by
    with_unfolding_all decide
  exact ⟨hu, hm, (c1_treated_above_truncated_median c1Panel hu _ hm).1⟩

/-- C9: in `add_treatment_variables` a region with no 2016 row, or whose
2016 treatment intensity is missing, is control: `treated = 0` and `did = 0`
on all its rows; likewise `treated_alt`/`did_alt` in the frame built by
`run_did_with_threshold`. -/
theorem c9_missing_2016_means_control :
    (∀ (p : Panel), unique2016 p.rows → ∀ dr ∈ add_treatment_variables p,
      ((∀ r ∈ p.rows, r.year = 2016 → r.region ≠ dr.region) ∨
        ti2016 p.rows dr.region = some none) →
      dr.treated = 0 ∧ dr.did = 0) ∧
    (∀ (panel : List MRow) (thr : ℚ), ∀ ar ∈ didAltFrame panel thr,
      ((∀ r ∈ panel, r.year = 2016 → r.region ≠ ar.region) ∨
        tiAlt2016 panel ar.region = some none) →
      ar.treated_alt = 0 ∧ ar.did_alt = 0) := by
  constructor
  · intro p _ dr hdr hcond
    obtain ⟨ht, _, hd⟩ := mem_add_treatment_variables p dr hdr
    have hz : treatedOf p.rows dr.region = 0 := by
      rcases hcond with hnone | hmiss
      · have hfind : (zipIntensity p.rows).find?
            (fun x => x.1.year == 2016 && x.1.region == dr.region) = none := by
          apply List.find?_eq_none.mpr
          intro x hx
          have hx1 : x.1 ∈ p.rows := (List.of_mem_zip hx).1
          simp only [Bool.and_eq_true, beq_iff_eq, not_and]
          intro hyear
          exact hnone x.1 hx1 hyear
        have hti : ti2016 p.rows dr.region = none := by
          unfold ti2016
          rw [hfind]
          rfl
        unfold treatedOf
        rw [hti]
      · unfold treatedOf
        rw [hmiss]
    constructor
    · rw [ht, hz]
    · rw [hd, ht, hz, Nat.zero_mul]
  · intro panel thr ar har hcond
    obtain ⟨x, hx, rfl⟩ := List.mem_map.mp har
    have hz : treatedAltOf panel thr x.region = 0 := by
      rcases hcond with hnone | hmiss
      · have hfind : panel.find? (fun r => r.year == 2016 && r.region == x.region) = none := by
          apply List.find?_eq_none.mpr
          intro r hr
          simp only [Bool.and_eq_true, beq_iff_eq, not_and]
          intro hyear
          exact hnone r hr hyear
        have hti : tiAlt2016 panel x.region = none := by
          unfold tiAlt2016
          rw [hfind]
          rfl
        unfold treatedAltOf
        rw [hti]
      · unfold treatedAltOf
        rw [hmiss]
    constructor
    · exact hz
    · show treatedAltOf panel thr x.region * x.post = 0
      rw [hz, Nat.zero_mul]

/-- Witness for C9: region "C" of `c9Panel` has a 2016 row whose intensity
is missing, and the corresponding rows get `treated = 0` and `did = 0`;
likewise for `c9MPanel` under `run_did_with_threshold`. -/
theorem c9_witness :
    unique2016 c9Panel.rows ∧
    ti2016 c9Panel.rows "C" = some none ∧
    ((add_treatment_variables c9Panel).getD 2 dDesignRow).treated = 0 ∧
    ((add_treatment_variables c9Panel).getD 2 dDesignRow).did = 0 ∧
    tiAlt2016 c9MPanel "C" = some none ∧
    ((didAltFrame c9MPanel 0).getD 2
        { region := "", year := 0, treatment_intensity := none, post := 0,
          crime_rate_per_100k := none, treated_alt := 0, did_alt := 0 }).treated_alt = 0 := by
  have hu : unique2016 c9Panel.rows := by with_unfolding_all decide
  have hm : (add_treatment_variables c9Panel).getD 2 dDesignRow ∈
      add_treatment_variables c9Panel := by
    with_unfolding_all decide
  have hreg : ((add_treatment_variables c9Panel).getD 2 dDesignRow).region = "C" := by
    with_unfolding_all decide
  have hmiss : ti2016 c9Panel.rows
      ((add_treatment_variables c9Panel).getD 2 dDesignRow).region = some none := by
    rw [hreg]
    with_unfolding_all decide
  have h := c9_missing_2016_means_control.1 c9Panel hu _ hm (Or.inr hmiss)
  have hm2 : (didAltFrame c9MPanel 0).getD 2
      { region := "", year := 0, treatment_intensity := none, post := 0,
        crime_rate_per_100k := none, treated_alt := 0, did_alt := 0 } ∈
      didAltFrame c9MPanel 0 := by
    with_unfolding_all decide
  have hreg2 : ((didAltFrame c9MPanel 0).getD 2
      { region := "", year := 0, treatment_intensity := none, post := 0,
        crime_rate_per_100k := none, treated_alt := 0, did_alt := 0 }).region = "C" := by
    with_unfolding_all decide
  have hmiss2 : tiAlt2016 c9MPanel ((didAltFrame c9MPanel 0).getD 2
      { region := "", year := 0, treatment_intensity := none, post := 0,
        crime_rate_per_100k := none, treated_alt := 0, did_alt := 0 }).region = some none := by
    rw [hreg2]
    with_unfolding_all decide
  have h2 := c9_missing_2016_means_control.2 c9MPanel 0 _ hm2 (Or.inr hmiss2)
  refine ⟨hu, by with_unfolding_all decide, h.1, h.2, by with_unfolding_all decide, h2.1⟩

/-! ## Event-study table lemmas (claims C2 and C10) -/

/-- The extraction loop is the `filterMap` of `eventRowOf` over the
parameter list. -/
theorem extractEventRowsAux_eq_filterMap (m : RegModel) (ref_year : ℤ)
    (ps : List (String × ℚ)) :
    extractEventRowsAux m ref_year ps = ps.filterMap (eventRowOf m ref_year) := by
  induction ps with
  | nil => rfl
  | cons p ps ih =>
    rw [List.filterMap_cons]
    cases h : eventRowOf m ref_year p with
    | none => simp only [extractEventRowsAux, h, ih]
    | some r => simp only [extractEventRowsAux, h, ih]

theorem extractEventRows_eq_filterMap (m : RegModel) (ref_year : ℤ) :
    extractEventRows m ref_year = m.params.filterMap (eventRowOf m ref_year) :=
  extractEventRowsAux_eq_filterMap m ref_year m.params

theorem roundPvalue_year (r : EventRow) : (roundPvalue r).year = r.year := rfl

theorem roundPvalue_refRow (y : ℤ) : roundPvalue (refRow y) = refRow y := rfl

/-- Rounding the p-value column preserves sortedness by 'rel_year'. -/
theorem sorted_map_roundPvalue (l : List EventRow) (h : List.Sorted relLE l) :
    List.Sorted relLE (l.map roundPvalue) :=
  List.pairwise_map.mpr (h.imp fun hab => hab)

/-- The table returned on the `.ok` path, in terms of the extracted rows. -/
theorem build_event_study_table_ok (m : RegModel) (ref_year : ℤ) (t : List EventRow)
    (h : build_event_study_table m ref_year = .ok t) :
    ((extractEventRows m ref_year).any fun r => r.year == ref_year) = true ∧
      t = (sortByRelYear (extractEventRows m ref_year)).map roundPvalue ∨
    ((extractEventRows m ref_year).any fun r => r.year == ref_year) = false ∧
      t = (sortByRelYear (extractEventRows m ref_year ++ [refRow ref_year])).map roundPvalue := by
  unfold build_event_study_table at h
  by_cases h1 : (extractEventRows m ref_year).isEmpty
  · rw [if_pos h1] at h
    cases h
  · rw [if_neg h1] at h
    by_cases h2 : ((extractEventRows m ref_year).any fun r => r.year == ref_year) = true
    · rw [if_pos h2] at h
      simp only [Except.ok.injEq] at h
      exact Or.inl ⟨h2, h.symm⟩
    · rw [if_neg h2] at h
      simp only [Except.ok.injEq] at h
      simp only [Bool.not_eq_true] at h2
      exact Or.inr ⟨h2, h.symm⟩

/-- C2 counterexample: the single parameter of `c2BadModel` does not match
the event-study pattern as a whole (trailing characters follow ":treated"),
yet `build_event_study_table` extracts a row from it — `re.match` anchors
only at the start of the name. -/
theorem c2_counterexample :
    eventPatternCaptureFull "C(year, Treatment(reference=2015))[2016]:treatedXXX" = none ∧
    c2BadModel.params = [("C(year, Treatment(reference=2015))[2016]:treatedXXX", 5)] ∧
    build_event_study_table c2BadModel 2015 =
      .ok [refRow 2015,
           { year := 2016, rel_year := 1, coef := 5, se := none, pvalue := none,
             ci_low := none, ci_high := none }] := by
  with_unfolding_all decide

/-- C2 (amended): every returned table is, up to the 'rel_year' sort and
the p-value rounding, the rows of the parameters whose names match the
event-study pattern at the start of the name (`re.match` semantics),
possibly plus the synthetic reference row; each such row carries the year
captured from the name, `rel_year = year - ref_year`, the parameter's
coefficient, and the model's standard error and 95% confidence bounds for
that name; a parameter whose name does not so match contributes no row. -/
theorem c2_event_rows_from_matching_params (m : RegModel) (ref_year : ℤ)
    (t : List EventRow) (h : build_event_study_table m ref_year = .ok t) :
    (t.Perm ((m.params.filterMap (eventRowOf m ref_year)).map roundPvalue) ∨
      t.Perm (((m.params.filterMap (eventRowOf m ref_year)) ++ [refRow ref_year]).map roundPvalue)) ∧
    (∀ p : String × ℚ, ∀ y : ℕ, eventPatternCapture p.1 = some y →
      eventRowOf m ref_year p = some
        { year := (y : ℤ), rel_year := (y : ℤ) - ref_year, coef := p.2,
          se := seriesGet m.bse p.1, pvalue := seriesGet m.pvalues p.1,
          ci_low := (ciGet m.conf_int p.1).map Prod.fst,
          ci_high := (ciGet m.conf_int p.1).map Prod.snd }) ∧
    (∀ p : String × ℚ, eventPatternCapture p.1 = none → eventRowOf m ref_year p = none) := by
  refine ⟨?_, ?_, ?_⟩
  · rcases build_event_study_table_ok m ref_year t h with ⟨_, ht⟩ | ⟨_, ht⟩
    · left
      rw [ht, ← extractEventRows_eq_filterMap]
      exact (List.perm_insertionSort relLE _).map roundPvalue
    · right
      rw [ht, ← extractEventRows_eq_filterMap]
      exact (List.perm_insertionSort relLE _).map roundPvalue
  · intro p y hy
    unfold eventRowOf
    rw [hy]
    rfl
  · intro p hy
    unfold eventRowOf
    rw [hy]
    rfl

/-- Witness for C2 at a concrete model with one exactly-matching
parameter. -/
theorem c2_witness :
    build_event_study_table c2Model 2015 = .ok c2Table ∧
    (c2Table.Perm ((c2Model.params.filterMap (eventRowOf c2Model 2015)).map roundPvalue) ∨
      c2Table.Perm (((c2Model.params.filterMap (eventRowOf c2Model 2015)) ++
        [refRow 2015]).map roundPvalue)) := by
  have h : build_event_study_table c2Model 2015 = .ok c2Table := by
    with_unfolding_all decide
  exact ⟨h, (c2_event_rows_from_matching_params c2Model 2015 c2Table h).1⟩

/-- C10 counterexample: `c10Model` has two distinct parameter names both
captured as calendar year 2015, so the table built at `ref_year = 2015`
contains two rows with `year = ref_year`, not exactly one. -/
theorem c10_counterexample :
    build_event_study_table c10Model 2015 = .ok c10Table ∧
    countYear c10Table 2015 = 2 := by
  with_unfolding_all decide

/-- A permutation preserves the per-year row count. -/
theorem countYear_perm (t1 t2 : List EventRow) (h : t1.Perm t2) (y : ℤ) :
    countYear t1 y = countYear t2 y :=
  (h.filter _).length_eq

/-- Rounding the p-value column preserves the per-year row count. -/
theorem countYear_map_roundPvalue (l : List EventRow) (y : ℤ) :
    countYear (l.map roundPvalue) y = countYear l y := by
  unfold countYear
  rw [List.filter_map, List.length_map]
  rfl

/-- C10 (amended): every table returned by `build_event_study_table` is
sorted in non-decreasing 'rel_year' order and contains at least one row with
`year = ref_year`; when no extracted coefficient carries the reference year
there is exactly one such row, namely the synthetic reference row
(`rel_year = 0`, `coef = 0`, missing se and confidence bounds); and when no
parameter matches the pattern at all the function raises `ValueError`. -/
theorem c10_event_table_invariants :
    (∀ (m : RegModel) (ref_year : ℤ) (t : List EventRow),
      build_event_study_table m ref_year = .ok t →
      List.Sorted relLE t ∧
      (∃ r ∈ t, r.year = ref_year) ∧
      ((∀ r ∈ extractEventRows m ref_year, r.year ≠ ref_year) →
        countYear t ref_year = 1 ∧ refRow ref_year ∈ t)) ∧
    (∀ (m : RegModel) (ref_year : ℤ),
      extractEventRows m ref_year = [] →
      build_event_study_table m ref_year = .error noEventMsg) := by
  constructor
  · intro m ref_year t h
    rcases build_event_study_table_ok m ref_year t h with ⟨hany, ht⟩ | ⟨hany, ht⟩
    · refine ⟨?_, ?_, ?_⟩
      · rw [ht]
        exact sorted_map_roundPvalue _ (List.sorted_insertionSort relLE _)
      · obtain ⟨r, hr, hry⟩ := List.any_eq_true.mp hany
        refine ⟨roundPvalue r, ?_, ?_⟩
        · rw [ht]
          apply List.mem_map_of_mem
          exact ((List.perm_insertionSort relLE _).mem_iff).mpr hr
        · rw [roundPvalue_year]
          exact beq_iff_eq.mp hry
      · intro hnone
        obtain ⟨r, hr, hry⟩ := List.any_eq_true.mp hany
        exact absurd (beq_iff_eq.mp hry) (hnone r hr)
    · refine ⟨?_, ?_, ?_⟩
      · rw [ht]
        exact sorted_map_roundPvalue _ (List.sorted_insertionSort relLE _)
      · refine ⟨refRow ref_year, ?_, rfl⟩
        rw [ht, ← roundPvalue_refRow]
        apply List.mem_map_of_mem
        apply ((List.perm_insertionSort relLE _).mem_iff).mpr
        exact List.mem_append_right _ (List.mem_singleton.mpr rfl)
      · intro hnone
        constructor
        · rw [ht, countYear_map_roundPvalue]
          have hc : countYear (sortByRelYear (extractEventRows m ref_year ++ [refRow ref_year])) ref_year =
              countYear (extractEventRows m ref_year ++ [refRow ref_year]) ref_year :=
            countYear_perm _ _ (List.perm_insertionSort relLE _) ref_year
          rw [hc]
          unfold countYear
          rw [List.filter_append, List.length_append]
          have h1 : (extractEventRows m ref_year).filter (fun r => r.year == ref_year) = [] := by
            apply List.filter_eq_nil_iff.mpr
            intro r hr
            simp only [beq_iff_eq]
            exact hnone r hr
          rw [h1]
          simp [refRow]
        · rw [ht, ← roundPvalue_refRow]
          apply List.mem_map_of_mem
          apply ((List.perm_insertionSort relLE _).mem_iff).mpr
          exact List.mem_append_right _ (List.mem_singleton.mpr rfl)
  · intro m ref_year hempty
    unfold build_event_study_table
    rw [if_pos (by rw [hempty]; rfl)]

/-- Witness for C10: a model with one matching parameter away from the
reference year (exactly one reference-year row, the synthetic one) and a
model with no matching parameter (the `ValueError` path). -/
theorem c10_witness :
    build_event_study_table c10wModel 2015 = .ok c10wTable ∧
    extractEventRows c10wModel 2015 =
      [{ year := 2016, rel_year := 1, coef := 3, se := none, pvalue := none,
         ci_low := none, ci_high := none }] ∧
    countYear c10wTable 2015 = 1 ∧ refRow 2015 ∈ c10wTable ∧
    extractEventRows c10eModel 2015 = [] ∧
    build_event_study_table c10eModel 2015 = .error noEventMsg := by
  have h : build_event_study_table c10wModel 2015 = .ok c10wTable := by
    with_unfolding_all decide
  have hx : extractEventRows c10wModel 2015 =
      [{ year := 2016, rel_year := 1, coef := 3, se := none, pvalue := none,
         ci_low := none, ci_high := none }] := by
    with_unfolding_all decide
  have hnone : ∀ r ∈ extractEventRows c10wModel 2015, r.year ≠ 2015 := by
    intro r hr
    rw [hx] at hr
    rw [List.mem_singleton.mp hr]
    with_unfolding_all decide
  have he : extractEventRows c10eModel 2015 = [] := by
    with_unfolding_all decide
  have hc := (c10_event_table_invariants.1 c10wModel 2015 c10wTable h).2.2 hnone
  exact ⟨h, hx, hc.1, hc.2, he, c10_event_table_invariants.2 c10eModel 2015 he⟩

/-! ## Grouped-difference lemmas (claim C4) -/

theorem diffByRegion_length (rows : List Row) (seen : List (String × Option ℚ)) :
    (diffByRegion rows seen).length = rows.length := by
  induction rows generalizing seen with
  | nil => rfl
  | cons r rs ih => simp [diffByRegion, ih]

/-- `List.lookup` through a cons whose key matches. -/
theorem lookup_cons_eq_of_beq {β : Type} (k a : String) (v : β) (es : List (String × β))
    (h : (a == k) = true) : ((k, v) :: es).lookup a = some v := by
  simp [List.lookup, h]

/-- `List.lookup` through a cons whose key differs. -/
theorem lookup_cons_eq_of_bne {β : Type} (k a : String) (v : β) (es : List (String × β))
    (h : (a == k) = false) : ((k, v) :: es).lookup a = es.lookup a := by
  simp [List.lookup, h]

/-- `lastPrevFt` over a cons: a later row of the region shadows `r`. -/
theorem lastPrevFt_cons (r : Row) (pre : List Row) (reg : String) :
    lastPrevFt (r :: pre) reg =
      match lastPrevFt pre reg with
      | some p => some p
      | none => if r.region = reg then some r.foreigners_total else none := by
  by_cases h : (r.region == reg) = true
  · have hfil : (r :: pre).filter (fun x => x.region == reg) =
        r :: pre.filter (fun x => x.region == reg) :=
      List.filter_cons_of_pos h
    cases hf : pre.filter (fun x => x.region == reg) with
    | nil =>
      unfold lastPrevFt
      rw [hfil, hf]
      simp [beq_iff_eq.mp h]
    | cons b bs =>
      have hsome : lastPrevFt pre reg = ((b :: bs).getLast?).map (·.foreigners_total) := by
        unfold lastPrevFt
        rw [hf]
      rw [hsome]
      unfold lastPrevFt
      rw [hfil, hf, List.getLast?_cons_cons]
      cases hLast : (b :: bs).getLast? with
      | none => simp at hLast
      | some x => rfl
  · have hfil : (r :: pre).filter (fun x => x.region == reg) =
        pre.filter (fun x => x.region == reg) :=
      List.filter_cons_of_neg (by simpa using h)
    have heq : lastPrevFt (r :: pre) reg = lastPrevFt pre reg := by
      unfold lastPrevFt
      rw [hfil]
    rw [heq]
    have h2 : ¬(r.region = reg) := by
      intro hc
      exact h (beq_iff_eq.mpr hc)
    cases lastPrevFt pre reg with
    | none => simp [h2]
    | some p => rfl

/-- The running-state characterization of `diffByRegion`: entry `i` is the
difference against the last earlier row of the same region, falling back to
the remembered value in `seen` when the region has not occurred yet. -/
theorem diffByRegion_getD (rows : List Row) (seen : List (String × Option ℚ))
    (i : ℕ) (hi : i < rows.length) :
    (diffByRegion rows seen).getD i none =
      (match lastPrevFt (rows.take i) ((rows.getD i dRow).region) with
       | some prev => optSub ((rows.getD i dRow).foreigners_total) prev
       | none =>
         match seen.lookup ((rows.getD i dRow).region) with
         | some prev => optSub ((rows.getD i dRow).foreigners_total) prev
         | none => none) := by
  induction rows generalizing seen i with
  | nil => exact absurd hi (by simp)
  | cons r rs ih =>
    cases i with
    | zero =>
      cases hlk : seen.lookup r.region with
      | none => simp [diffByRegion, lastPrevFt, hlk]
      | some prev => simp [diffByRegion, lastPrevFt, hlk]
    | succ i =>
      have hi2 : i < rs.length := Nat.lt_of_succ_lt_succ hi
      have hstep : diffByRegion (r :: rs) seen =
          (match seen.lookup r.region with
           | none => none
           | some prev => optSub r.foreigners_total prev) ::
            diffByRegion rs ((r.region, r.foreigners_total) :: seen) := rfl
      rw [hstep, List.getD_cons_succ, ih ((r.region, r.foreigners_total) :: seen) i hi2,
        List.take_succ_cons, List.getD_cons_succ, lastPrevFt_cons]
      generalize rs.getD i dRow = x
      cases hl : lastPrevFt (rs.take i) x.region with
      | some p => rfl
      | none =>
        by_cases hreq : r.region = x.region
        · rw [if_pos hreq]
          have hbeq : (x.region == r.region) = true := beq_iff_eq.mpr hreq.symm
          rw [lookup_cons_eq_of_beq _ _ _ _ hbeq]
        · rw [if_neg hreq]
          have hbeq : (x.region == r.region) = false := by
            rw [beq_eq_false_iff_ne]
            intro hc
            exact hreq hc.symm
          rw [lookup_cons_eq_of_bne _ _ _ _ hbeq]

/-- C4: the 'treatment_intensity' column is the first difference of
'foreigners_total' within each region: entry `i` is row `i`'s value minus
the value of the last earlier row of the same region (missing when either
value is missing), and it is missing for the first row of each region. -/
theorem c4_treatment_intensity_grouped_diff (rows : List Row) (i : ℕ)
    (hi : i < rows.length) :
    (treatment_intensity_list rows).length = rows.length ∧
    (treatment_intensity_list rows).getD i none =
      (match lastPrevFt (rows.take i) ((rows.getD i dRow).region) with
       | some prev => optSub ((rows.getD i dRow).foreigners_total) prev
       | none => none) := by
  constructor
  · exact diffByRegion_length rows []
  · rw [treatment_intensity_list, diffByRegion_getD rows [] i hi]
    cases lastPrevFt (rows.take i) ((rows.getD i dRow).region) with
    | none => rfl
    | some p => rfl

/-- Witness for C4: in `c4Rows` the third row (region "A", value 9) differs
against the first row of region "A" (value 10), giving -1. -/
theorem c4_witness :
    2 < c4Rows.length ∧
    (treatment_intensity_list c4Rows).length = c4Rows.length ∧
    lastPrevFt (c4Rows.take 2) ((c4Rows.getD 2 dRow).region) = some (some 10) ∧
    (treatment_intensity_list c4Rows).getD 2 none = some (-1) := by
  have h := c4_treatment_intensity_grouped_diff c4Rows 2 (by decide)
  refine ⟨by decide, h.1, by with_unfolding_all decide, ?_⟩
  rw [h.2]
  with_unfolding_all decide

/-! ## Pre-trend restriction lemmas (claim C6) -/

theorem foldl_min_mem (ys : List ℤ) (y : ℤ) : ys.foldl min y = y ∨ ys.foldl min y ∈ ys := by
  induction ys generalizing y with
  | nil => exact Or.inl rfl
  | cons z zs ih =>
    rw [List.foldl_cons]
    rcases ih (min y z) with h | h
    · rcases le_total y z with hyz | hzy
      · left
        rw [h, min_eq_left hyz]
      · right
        rw [h, min_eq_right hzy]
        exact List.mem_cons_self z zs
    · right
      exact List.mem_cons_of_mem z h

theorem foldl_min_le (ys : List ℤ) (y : ℤ) :
    ys.foldl min y ≤ y ∧ ∀ z ∈ ys, ys.foldl min y ≤ z := by
  induction ys generalizing y with
  | nil => exact ⟨le_refl y, by simp⟩
  | cons z zs ih =>
    rw [List.foldl_cons]
    obtain ⟨h1, h2⟩ := ih (min y z)
    refine ⟨le_trans h1 (min_le_left y z), ?_⟩
    intro w hw
    rcases List.mem_cons.mp hw with rfl | hw
    · exact le_trans h1 (min_le_right y w)
    · exact h2 w hw

/-- The minimum year of a nonempty frame is attained and is a lower bound. -/
theorem minYear_spec (rows : List PRow) (m0 : ℤ) (h : minYear rows = some m0) :
    (∃ r ∈ rows, r.year = m0) ∧ ∀ r ∈ rows, m0 ≤ r.year := by
  cases rows with
  | nil => cases h
  | cons r rs =>
    have hm : m0 = (rs.map (·.year)).foldl min r.year := by
      have hr : minYear (r :: rs) = some ((rs.map (·.year)).foldl min r.year) := rfl
      rw [hr] at h
      exact (Option.some.inj h).symm
    constructor
    · rcases foldl_min_mem (rs.map (·.year)) r.year with h1 | h1
      · exact ⟨r, List.mem_cons_self r rs, by rw [hm, h1]⟩
      · obtain ⟨r2, hr2, hy⟩ := List.mem_map.mp h1
        exact ⟨r2, List.mem_cons_of_mem _ hr2, by rw [hm, ← hy]⟩
    · intro q hq
      obtain ⟨h1, h2⟩ := foldl_min_le (rs.map (·.year)) r.year
      rcases List.mem_cons.mp hq with rfl | hq2
      · rw [hm]
        exact h1
      · rw [hm]
        exact h2 q.year (List.mem_map_of_mem _ hq2)

theorem minYear_of_ne_nil (rows : List PRow) (h : rows ≠ []) :
    ∃ m0, minYear rows = some m0 := by
  cases rows with
  | nil => exact absurd rfl h
  | cons r rs => exact ⟨_, rfl⟩

/-- C6: `fit_pretrend_interaction` estimates only on the rows with
`year < pre_cutoff_year` — for every estimator, rows at or past the cutoff
have no influence — and on the retained rows `year_num` equals the year
minus the minimum retained year, hence is nonnegative and attains 0. -/
theorem c6_pretrend_preperiod_only (ols : List PreRow → RegModel)
    (panel : List PRow) (cutoff : ℤ) :
    fit_pretrend_interaction ols panel cutoff =
      fit_pretrend_interaction ols (preRestrict panel cutoff) cutoff ∧
    (∀ pr ∈ preFrame panel cutoff,
      pr.year < cutoff ∧
      ∃ m0, minYear (preRestrict panel cutoff) = some m0 ∧
        pr.year_num = some (pr.year - m0) ∧ 0 ≤ pr.year - m0) ∧
    (preFrame panel cutoff ≠ [] →
      ∃ pr ∈ preFrame panel cutoff, pr.year_num = some 0) := by
  have hidem : preRestrict (preRestrict panel cutoff) cutoff = preRestrict panel cutoff := by
    unfold preRestrict
    rw [List.filter_filter]
    simp
  refine ⟨?_, ?_, ?_⟩
  · unfold fit_pretrend_interaction preFrame
    rw [hidem]
  · intro pr hpr
    obtain ⟨r, hr, rfl⟩ := List.mem_map.mp hpr
    have hlt : r.year < cutoff := by
      have := (List.mem_filter.mp hr).2
      exact of_decide_eq_true this
    obtain ⟨m0, hm0⟩ := minYear_of_ne_nil (preRestrict panel cutoff)
      (List.ne_nil_of_mem hr)
    refine ⟨hlt, m0, hm0, ?_, ?_⟩
    · show (minYear (preRestrict panel cutoff)).map (fun m1 => r.year - m1) = _
      rw [hm0]
      rfl
    · have hmin := (minYear_spec (preRestrict panel cutoff) m0 hm0).2 r hr
      show 0 ≤ r.year - m0
      omega
  · intro hne
    have hpre : preRestrict panel cutoff ≠ [] := by
      intro hc
      apply hne
      unfold preFrame
      rw [hc]
      rfl
    obtain ⟨m0, hm0⟩ := minYear_of_ne_nil _ hpre
    obtain ⟨⟨r0, hr0, hy0⟩, _⟩ := minYear_spec _ m0 hm0
    refine ⟨{ toPRow := r0,
              year_num := (minYear (preRestrict panel cutoff)).map fun m1 => r0.year - m1 },
      List.mem_map_of_mem _ hr0, ?_⟩
    show (minYear (preRestrict panel cutoff)).map (fun m1 => r0.year - m1) = some 0
    rw [hm0]
    show some (r0.year - m0) = some 0
    rw [hy0, sub_self]

/-- Witness for C6: at the cutoff 2016, `c6Panel` keeps its 2012 and 2014
rows; the first retained row has `year_num = 0`. -/
theorem c6_witness :
    fit_pretrend_interaction c6Ols c6Panel 2016 =
      fit_pretrend_interaction c6Ols (preRestrict c6Panel 2016) 2016 ∧
    preFrame c6Panel 2016 ≠ [] ∧
    ((preFrame c6Panel 2016).getD 0 dPreRow ∈ preFrame c6Panel 2016) ∧
    ((preFrame c6Panel 2016).getD 0 dPreRow).year < 2016 ∧
    ((preFrame c6Panel 2016).getD 0 dPreRow).year_num = some 0 := by
  have hm : (preFrame c6Panel 2016).getD 0 dPreRow ∈ preFrame c6Panel 2016 := by
    with_unfolding_all decide
  have h := c6_pretrend_preperiod_only c6Ols c6Panel 2016
  exact ⟨h.1, by with_unfolding_all decide, hm, (h.2.1 _ hm).1, by with_unfolding_all decide⟩

/-! ## Column-presence checks (claim C7) -/

/-- The emptiness of the computed `missing` set states exactly that all
three required columns are present. -/
theorem missing_isEmpty_iff (panel : DynDF) (outcome : String) :
    ((["year", "treated", outcome].filter fun c => decide (c ∉ panel.cols)).isEmpty = true) ↔
      ("year" ∈ panel.cols ∧ "treated" ∈ panel.cols ∧ outcome ∈ panel.cols) := by
  rw [List.isEmpty_iff, List.filter_eq_nil_iff]
  constructor
  · intro h
    refine ⟨?_, ?_, ?_⟩
    · have := h "year" (by simp)
      simpa using this
    · have := h "treated" (by simp)
      simpa using this
    · have := h outcome (by simp)
      simpa using this
  · rintro ⟨h1, h2, h3⟩ c hc
    simp only [List.mem_cons, List.not_mem_nil, or_false] at hc
    rcases hc with rfl | rfl | rfl <;> simp [h1, h2, h3]

/-- C7: `compute_parallel_trends_data` raises `ValueError` exactly when
'year', 'treated' or the outcome column is absent; otherwise it returns the
per-(year, treated) group means of the outcome without raising; and
`compute_treatment_intensity_distribution` raises `ValueError` when 'year'
or the intensity column is absent. -/
theorem c7_column_presence_checks :
    (∀ (panel : DynDF) (outcome : String),
      compute_parallel_trends_data panel outcome = .error missingMsg ↔
        ¬("year" ∈ panel.cols ∧ "treated" ∈ panel.cols ∧ outcome ∈ panel.cols)) ∧
    (∀ (panel : DynDF) (outcome : String),
      ("year" ∈ panel.cols ∧ "treated" ∈ panel.cols ∧ outcome ∈ panel.cols) →
        compute_parallel_trends_data panel outcome = .ok (groupMeans panel outcome)) ∧
    (∀ (panel : DynDF) (outcome : String) (g : ℚ × ℚ × Option ℚ),
      g ∈ groupMeans panel outcome →
        g.2.2 = meanOpt ((rowsAtKey panel g.1 g.2.1).filterMap fun r => r.lookup outcome)) ∧
    (∀ (panel : DynDF) (year : ℚ) (icol : String),
      ("year" ∉ panel.cols ∨ icol ∉ panel.cols) →
        compute_treatment_intensity_distribution panel year icol = .error missingMsg) := by
  refine ⟨?_, ?_, ?_, ?_⟩
  · intro panel outcome
    unfold compute_parallel_trends_data
    by_cases h : ((["year", "treated", outcome].filter fun c =>
        decide (c ∉ panel.cols)).isEmpty = true)
    · rw [if_pos h]
      constructor
      · intro hc
        cases hc
      · intro hc
        exact absurd ((missing_isEmpty_iff panel outcome).mp h) hc
    · rw [if_neg h]
      constructor
      · intro _ hc
        exact h ((missing_isEmpty_iff panel outcome).mpr hc)
      · intro _
        rfl
  · intro panel outcome h
    unfold compute_parallel_trends_data
    rw [if_pos ((missing_isEmpty_iff panel outcome).mpr h)]
  · intro panel outcome g hg
    obtain ⟨k, _, rfl⟩ := List.mem_map.mp hg
    rfl
  · intro panel year icol h
    unfold compute_treatment_intensity_distribution
    have hne : ¬((["year", icol].filter fun c => decide (c ∉ panel.cols)).isEmpty = true) := by
      intro he
      rw [List.isEmpty_iff, List.filter_eq_nil_iff] at he
      rcases h with h | h
      · exact h (by simpa using he "year" (by simp))
      · exact h (by simpa using he icol (by simp))
    rw [if_neg hne]

/-- Witness for C7 at two concrete frames: one with all required columns
(means returned), one lacking 'treated' (both helpers raise). -/
theorem c7_witness :
    ("year" ∈ c7Good.cols ∧ "treated" ∈ c7Good.cols ∧ "crime_rate_per_100k" ∈ c7Good.cols) ∧
    compute_parallel_trends_data c7Good "crime_rate_per_100k" =
      .ok (groupMeans c7Good "crime_rate_per_100k") ∧
    groupMeans c7Good "crime_rate_per_100k" = [(2015, 1, some 8)] ∧
    ("treated" ∉ c7Bad.cols) ∧
    compute_parallel_trends_data c7Bad "crime_rate_per_100k" = .error missingMsg ∧
    compute_treatment_intensity_distribution c7Bad 2016 "treated" = .error missingMsg := by
  have hg : "year" ∈ c7Good.cols ∧ "treated" ∈ c7Good.cols ∧
      "crime_rate_per_100k" ∈ c7Good.cols := by
    with_unfolding_all decide
  have hb : ¬("year" ∈ c7Bad.cols ∧ "treated" ∈ c7Bad.cols ∧
      "crime_rate_per_100k" ∈ c7Bad.cols) := by
    with_unfolding_all decide
  refine ⟨hg, c7_column_presence_checks.2.1 c7Good _ hg, by with_unfolding_all decide,
    by with_unfolding_all decide, (c7_column_presence_checks.1 c7Bad _).mpr hb,
    c7_column_presence_checks.2.2.2 c7Bad 2016 "treated"
      (Or.inr (by with_unfolding_all decide))⟩

end RefugeesDID
